import Mathlib

/-!
Shallow embedding of `homework.py`, a fitness-tracker calculator.
Python floats are modelled as rationals (ℚ); Python float floor
division `a // b` is modelled as `⌊a / b⌋` cast back to ℚ; the
`%.3f` rendering of the f-string is modelled by `formatFixed3`,
which rounds to the nearest thousandth (ties to even, as IEEE
formatting does) and always prints three fractional digits.
Fallible operations (`read_package`, the abstract base method
`Training.get_spent_calories`) return `Except HWError`.
-/

/-- Floor of a rational as an integer, mirroring Python float `//`
(after division): the quotient rounded down. -/
def floorQ (q : ℚ) : ℤ := ⌊q⌋

/-- Round a rational to the nearest integer, ties to even. -/
def roundHalfEven (q : ℚ) : ℤ :=
  if q - floorQ q < 1/2 then floorQ q
  else if 1/2 < q - floorQ q then floorQ q + 1
  else if floorQ q % 2 = 0 then floorQ q else floorQ q + 1

/-- Three decimal digit characters of `n` (low three decimal digits,
most significant first), the fractional part of a `%.3f` rendering. -/
def fracDigits3 (n : ℕ) : String :=
  ⟨[Nat.digitChar (n / 100 % 10), Nat.digitChar (n / 10 % 10), Nat.digitChar (n % 10)]⟩

/-- Render a rational the way Python formats a float with `:.3f`:
sign, integer part, a dot, and exactly three fractional digits. -/
def formatFixed3 (q : ℚ) : String :=
  ((if roundHalfEven (q * 1000) < 0 then "-" else "")
    ++ Nat.repr ((roundHalfEven (q * 1000)).natAbs / 1000))
  ++ "." ++ fracDigits3 ((roundHalfEven (q * 1000)).natAbs % 1000)

/-- Error conditions of the program: `keyError` for an unknown workout
code (Python `KeyError`), `arityMismatch` for a parameter list whose
length does not fit the constructor (Python `TypeError` on `*data`),
and `notImplemented` for the abstract base method (Python
`NotImplementedError`). -/
inductive HWError
  | keyError (msg : String)
  | arityMismatch (code : String) (got : ℕ)
  | notImplemented
  deriving DecidableEq, Repr

/-- Python class `InfoMessage`: the computed summary record. -/
structure InfoMessage where
  training_type : String
  duration : ℚ
  distance : ℚ
  speed : ℚ
  calories : ℚ
  deriving DecidableEq, Repr

/-- Python `InfoMessage.get_message`: the fixed-template report line. -/
def InfoMessage.get_message (m : InfoMessage) : String :=
  "Тип тренировки: " ++ m.training_type
  ++ "; Длительность: " ++ formatFixed3 m.duration
  ++ " ч.; Дистанция: " ++ formatFixed3 m.distance
  ++ " км; Ср. скорость: " ++ formatFixed3 m.speed
  ++ " км/ч; Потрачено ккал: " ++ formatFixed3 m.calories ++ "."

/-- Class constant `Training.M_IN_KM`. -/
def M_IN_KM : ℚ := 1000

/-- Class constant `Training.MIN_IN_HR`. -/
def MIN_IN_HR : ℚ := 60

/-- Python base class `Training`: fields shared by all variants. -/
structure Training where
  action : ℚ
  duration : ℚ
  weight : ℚ
  deriving DecidableEq, Repr

/-- Python `Training.get_spent_calories`: the base class raises
`NotImplementedError`. -/
def Training.get_spent_calories (_ : Training) : Except HWError ℚ :=
  Except.error HWError.notImplemented

/-- Python class `Running` (no extra fields). -/
structure Running extends Training
  deriving DecidableEq, Repr

/-- Python class `SportsWalking` (adds `height`). -/
structure SportsWalking extends Training where
  height : ℚ
  deriving DecidableEq, Repr

/-- Python class `Swimming` (adds `length_pool`, `count_pool`). -/
structure Swimming extends Training where
  length_pool : ℚ
  count_pool : ℚ
  deriving DecidableEq, Repr

/-- A dispatched workout: one of the three concrete `Training`
subclasses returned by `read_package`. -/
inductive Workout
  | run (r : Running)
  | wlk (s : SportsWalking)
  | swm (s : Swimming)
  deriving DecidableEq, Repr

/-- Class attribute `LEN_STEP`: 0.65 on `Training` (inherited by
`Running` and `SportsWalking`), overridden to 1.38 on `Swimming`. -/
def Workout.LEN_STEP : Workout → ℚ
  | .run _ => 0.65
  | .wlk _ => 0.65
  | .swm _ => 1.38

/-- Fields inherited from the base class `Training`. -/
def Workout.base : Workout → Training
  | .run r => r.toTraining
  | .wlk s => s.toTraining
  | .swm s => s.toTraining

/-- Python `self.__class__.__name__` as used by `show_training_info`. -/
def Workout.name : Workout → String
  | .run _ => "Running"
  | .wlk _ => "SportsWalking"
  | .swm _ => "Swimming"

/-- Python `Training.get_distance`: `action * LEN_STEP / M_IN_KM`,
with `LEN_STEP` looked up on the dynamic class. -/
def Workout.get_distance (w : Workout) : ℚ :=
  w.base.action * w.LEN_STEP / M_IN_KM

/-- Mean speed: the base implementation `get_distance() / duration`,
overridden by `Swimming.get_mean_speed` with
`length_pool * count_pool / M_IN_KM / duration`. -/
def Workout.get_mean_speed : Workout → ℚ
  | .swm s => s.length_pool * s.count_pool / M_IN_KM / s.duration
  | w => w.get_distance / w.base.duration

/-- Class constant `Running.RUN_COEFF_MULTIPL`. -/
def RUN_COEFF_MULTIPL : ℚ := 18

/-- Class constant `Running.RUN_COEFF_SUBTRACT`. -/
def RUN_COEFF_SUBTRACT : ℚ := 20

/-- Class constant `SportsWalking.SW_COEFF_MULTIPL_FOR_WEIGHT`. -/
def SW_COEFF_MULTIPL_FOR_WEIGHT : ℚ := 0.035

/-- Class constant `SportsWalking.SW_COEFF_MULTIPL`. -/
def SW_COEFF_MULTIPL : ℚ := 0.029

/-- Class constant `Swimming.SWIM_COEFF_FOR_MEAN_SPEED`. -/
def SWIM_COEFF_FOR_MEAN_SPEED : ℚ := 1.1

/-- Class constant `Swimming.SWIM_COEFF_MULTIPL`. -/
def SWIM_COEFF_MULTIPL : ℚ := 2

/-- Calorie computation of each concrete variant (the overriding
`get_spent_calories` methods). The exponent constant
`SW_COEFF_MULTIPL_FOR_MEAN_SPEED = 2` appears as the literal
exponent `2`; Python's float `//` between the squared speed and
the height is `floorQ` of the quotient, cast back to ℚ. -/
def Workout.get_spent_calories : Workout → Except HWError ℚ
  | w@(.run r) => Except.ok
      ((RUN_COEFF_MULTIPL * w.get_mean_speed - RUN_COEFF_SUBTRACT)
        * r.weight / M_IN_KM * r.duration * MIN_IN_HR)
  | w@(.wlk s) => Except.ok
      ((SW_COEFF_MULTIPL_FOR_WEIGHT * s.weight
        + ((floorQ (w.get_mean_speed ^ 2 / s.height) : ℚ))
          * SW_COEFF_MULTIPL * s.weight)
        * (s.duration * MIN_IN_HR))
  | w@(.swm s) => Except.ok
      ((w.get_mean_speed + SWIM_COEFF_FOR_MEAN_SPEED)
        * SWIM_COEFF_MULTIPL * s.weight)

/-- Python `Training.show_training_info`: package the derived
quantities into an `InfoMessage`. -/
def Workout.show_training_info (w : Workout) : Except HWError InfoMessage := do
  let c ← w.get_spent_calories
  pure ⟨w.name, w.base.duration, w.get_distance, w.get_mean_speed, c⟩

/-- Python `read_package`: look the workout code up in the dictionary
and construct the matching class positionally from `data`. An
unrecognized code raises `KeyError` with the code in the message; a
`data` of the wrong length makes positional construction fail. -/
def read_package (workout_type : String) (data : List ℚ) : Except HWError Workout :=
  if workout_type = "SWM" then
    match data with
    | [a, d, w, lp, cp] => Except.ok (Workout.swm ⟨⟨a, d, w⟩, lp, cp⟩)
    | _ => Except.error (HWError.arityMismatch "SWM" data.length)
  else if workout_type = "RUN" then
    match data with
    | [a, d, w] => Except.ok (Workout.run ⟨⟨a, d, w⟩⟩)
    | _ => Except.error (HWError.arityMismatch "RUN" data.length)
  else if workout_type = "WLK" then
    match data with
    | [a, d, w, h] => Except.ok (Workout.wlk ⟨⟨a, d, w⟩, h⟩)
    | _ => Except.error (HWError.arityMismatch "WLK" data.length)
  else
    Except.error (HWError.keyError (workout_type ++ " - неизвестный тип тренировки"))

/-- Pipeline of the driver `main`: dispatch, then build the report. -/
def runReport (workout_type : String) (data : List ℚ) : Except HWError InfoMessage :=
  (read_package workout_type data).bind Workout.show_training_info

/-! Helper lemmas shared by several theorems below. -/

/-- Unfolding of `formatFixed3` once the rounded thousandths are known. -/
lemma formatFixed3_of (q : ℚ) (m : ℤ) (h : roundHalfEven (q * 1000) = m) :
    formatFixed3 q =
      ((if m < 0 then "-" else "") ++ Nat.repr (m.natAbs / 1000))
        ++ "." ++ fracDigits3 (m.natAbs % 1000) := by
  rw [formatFixed3, h]

/-- Symbolic form of the Running calorie computation. -/
lemma run_cal (a d wt : ℚ) :
    (Workout.run ⟨⟨a, d, wt⟩⟩).get_spent_calories =
      Except.ok ((18 * (a * 0.65 / 1000 / d) - 20) * wt / 1000 * d * 60) := rfl

/-- Symbolic form of the SportsWalking calorie computation. -/
lemma wlk_cal (a d wt h : ℚ) :
    (Workout.wlk ⟨⟨a, d, wt⟩, h⟩).get_spent_calories =
      Except.ok ((0.035 * wt
        + ((floorQ ((a * 0.65 / 1000 / d) ^ 2 / h) : ℚ)) * 0.029 * wt)
        * (d * 60)) := rfl

/-- Digit characters of decimal digits are ASCII digits. -/
lemma digitChar_isDigit (n : ℕ) (h : n < 10) : (Nat.digitChar n).isDigit = true := by
  interval_cases n <;> decide

/-- The fractional block of `formatFixed3` is three characters long. -/
lemma fracDigits3_length (n : ℕ) : (fracDigits3 n).length = 3 := rfl

/-- The fractional block of `formatFixed3` consists of digits only. -/
lemma fracDigits3_all_digits (n : ℕ) : (fracDigits3 n).toList.all Char.isDigit = true := by
  have h1 := digitChar_isDigit (n / 100 % 10) (Nat.mod_lt _ (by decide))
  have h2 := digitChar_isDigit (n / 10 % 10) (Nat.mod_lt _ (by decide))
  have h3 := digitChar_isDigit (n % 10) (Nat.mod_lt _ (by decide))
  simp [fracDigits3, String.toList, h1, h2, h3]

/-- C1 counterexample: the RUN pipeline at (15000, 1, 75) yields
calories = 699.75, which is 7.5 away from the claimed approximate
value 692.25, so the calories are not approximately 692.25. -/
theorem c1_calories_counterexample :
    runReport "RUN" [15000, 1, 75] =
      Except.ok ⟨"Running", 1, 9.75, 9.75, 699.75⟩
    ∧ |(699.75 : ℚ) - 692.25| = 7.5
    ∧ ¬|(699.75 : ℚ) - 692.25| ≤ 0.5 := by
  have hr : runReport "RUN" [15000, 1, 75] =
      (Workout.run ⟨⟨15000, 1, 75⟩⟩).show_training_info := rfl
  refine ⟨?_, by norm_num [abs_of_nonneg], by norm_num [abs_of_nonneg]⟩
  rw [hr]
  norm_num [Workout.show_training_info, Workout.get_spent_calories,
    Workout.get_mean_speed, Workout.get_distance, Workout.base, Workout.name,
    Workout.LEN_STEP, M_IN_KM, MIN_IN_HR, RUN_COEFF_MULTIPL, RUN_COEFF_SUBTRACT,
    Except.bind, Except.pure]

/-- C1 amended: the pipeline at ("RUN", [15000, 1, 75]) yields a report
with duration 1.000, distance 9.750, mean speed 9.750, and calories
equal to the Running formula's value, 699.75; the formatted line matches
the fixed template exactly, trailing period included. -/
theorem c1_run_pipeline :
    runReport "RUN" [15000, 1, 75] =
      Except.ok ⟨"Running", 1, 9.75, 9.75, 699.75⟩
    ∧ (699.75 : ℚ) = (18 * 9.75 - 20) * 75 / 1000 * 1 * 60
    ∧ (InfoMessage.mk "Running" 1 9.75 9.75 699.75).get_message =
        "Тип тренировки: Running; Длительность: 1.000 ч.; Дистанция: 9.750 км; Ср. скорость: 9.750 км/ч; Потрачено ккал: 699.750." := by
  have hr : runReport "RUN" [15000, 1, 75] =
      (Workout.run ⟨⟨15000, 1, 75⟩⟩).show_training_info := rfl
  refine ⟨?_, by norm_num, ?_⟩
  · rw [hr]
    norm_num [Workout.show_training_info, Workout.get_spent_calories,
      Workout.get_mean_speed, Workout.get_distance, Workout.base, Workout.name,
      Workout.LEN_STEP, M_IN_KM, MIN_IN_HR, RUN_COEFF_MULTIPL, RUN_COEFF_SUBTRACT,
      Except.bind, Except.pure]
  · rw [InfoMessage.get_message,
      formatFixed3_of 1 1000 (by norm_num [roundHalfEven, floorQ]),
      formatFixed3_of 9.75 9750 (by norm_num [roundHalfEven, floorQ]),
      formatFixed3_of 699.75 699750 (by norm_num [roundHalfEven, floorQ])]
    decide

/-- C2: for each of the three variants, `get_distance` is the action
count times the variant's step length (0.65 for Running and
SportsWalking, 1.38 for Swimming) divided by 1000. -/
theorem c2_distance :
    (∀ r : Running, (Workout.run r).get_distance = r.action * 0.65 / 1000)
    ∧ (∀ s : SportsWalking, (Workout.wlk s).get_distance = s.action * 0.65 / 1000)
    ∧ (∀ s : Swimming, (Workout.swm s).get_distance = s.action * 1.38 / 1000) :=
  ⟨fun _ => rfl, fun _ => rfl, fun _ => rfl⟩

/-- C3: SportsWalking calories follow the formula with floor division
between squared mean speed and height; concretely, at action 9000,
duration 1, weight 75, the calories are constant (288) for heights 30
and 34 and jump to 157.5 at height 35, and the floored quotient at
height 34 differs from the ordinary quotient. -/
theorem c3_walking_floor_div :
    (∀ s : SportsWalking, (Workout.wlk s).get_spent_calories =
      Except.ok ((0.035 * s.weight
        + ((floorQ ((Workout.wlk s).get_mean_speed ^ 2 / s.height) : ℚ))
          * 0.029 * s.weight) * (s.duration * 60)))
    ∧ (Workout.wlk ⟨⟨9000, 1, 75⟩, 30⟩).get_spent_calories = Except.ok 288
    ∧ (Workout.wlk ⟨⟨9000, 1, 75⟩, 34⟩).get_spent_calories = Except.ok 288
    ∧ (Workout.wlk ⟨⟨9000, 1, 75⟩, 35⟩).get_spent_calories = Except.ok 157.5
    ∧ ((floorQ (((9000 : ℚ) * 0.65 / 1000 / 1) ^ 2 / 34) : ℚ)) ≠
        ((9000 : ℚ) * 0.65 / 1000 / 1) ^ 2 / 34 := by
  have h30 : floorQ (((9000 : ℚ) * 0.65 / 1000 / 1) ^ 2 / 30) = 1 := by
    norm_num [floorQ, Int.floor_eq_iff]
  have h34 : floorQ (((9000 : ℚ) * 0.65 / 1000 / 1) ^ 2 / 34) = 1 := by
    norm_num [floorQ, Int.floor_eq_iff]
  have h35 : floorQ (((9000 : ℚ) * 0.65 / 1000 / 1) ^ 2 / 35) = 0 := by
    norm_num [floorQ, Int.floor_eq_iff]
  refine ⟨fun _ => rfl, ?_, ?_, ?_, ?_⟩
  · rw [wlk_cal, h30]; norm_num
  · rw [wlk_cal, h34]; norm_num
  · rw [wlk_cal, h35]; norm_num
  · rw [h34]; norm_num

/-- C4: Swimming mean speed is pool length times laps over 1000 over
duration, and it does not depend on the action count: two Swimming
samples agreeing on pool length, laps, and duration have the same
mean speed. -/
theorem c4_swim_mean_speed :
    (∀ s : Swimming, (Workout.swm s).get_mean_speed =
      s.length_pool * s.count_pool / 1000 / s.duration)
    ∧ (∀ s₁ s₂ : Swimming, s₁.length_pool = s₂.length_pool →
        s₁.count_pool = s₂.count_pool → s₁.duration = s₂.duration →
        (Workout.swm s₁).get_mean_speed = (Workout.swm s₂).get_mean_speed) := by
  refine ⟨fun _ => rfl, ?_⟩
  intro s₁ s₂ h1 h2 h3
  show s₁.length_pool * s₁.count_pool / M_IN_KM / s₁.duration =
    s₂.length_pool * s₂.count_pool / M_IN_KM / s₂.duration
  rw [h1, h2, h3]

/-- C4 witness: two concrete Swimming samples differing only in action
count (720 versus 9999 strokes) have the same mean speed. -/
theorem c4_swim_mean_speed_witness :
    (Swimming.mk ⟨720, 1, 80⟩ 25 40).length_pool =
      (Swimming.mk ⟨9999, 1, 80⟩ 25 40).length_pool
    ∧ (Swimming.mk ⟨720, 1, 80⟩ 25 40).count_pool =
        (Swimming.mk ⟨9999, 1, 80⟩ 25 40).count_pool
    ∧ (Swimming.mk ⟨720, 1, 80⟩ 25 40).duration =
        (Swimming.mk ⟨9999, 1, 80⟩ 25 40).duration
    ∧ (Workout.swm (Swimming.mk ⟨720, 1, 80⟩ 25 40)).get_mean_speed =
        (Workout.swm (Swimming.mk ⟨9999, 1, 80⟩ 25 40)).get_mean_speed :=
  ⟨rfl, rfl, rfl, c4_swim_mean_speed.2 _ _ rfl rfl rfl⟩

/-- C5: an unrecognized code makes the dispatcher fail with a key
error whose message starts with the offending code; the code "SWM"
with params [720, 1, 80, 25, 40] yields a Swimming instance whose
report's activity label is "Swimming". -/
theorem c5_dispatch :
    (∀ (code : String) (data : List ℚ),
      code ≠ "SWM" → code ≠ "RUN" → code ≠ "WLK" →
      ∃ tail, read_package code data =
        Except.error (HWError.keyError (code ++ tail)))
    ∧ read_package "SWM" [720, 1, 80, 25, 40] =
        Except.ok (Workout.swm ⟨⟨720, 1, 80⟩, 25, 40⟩)
    ∧ (Workout.swm ⟨⟨720, 1, 80⟩, 25, 40⟩).show_training_info =
        Except.ok ⟨"Swimming", 1, 0.9936, 1, 336⟩ := by
  refine ⟨?_, rfl, ?_⟩
  · intro code data h1 h2 h3
    refine ⟨" - неизвестный тип тренировки", ?_⟩
    delta read_package
    rw [if_neg h1, if_neg h2, if_neg h3]
  · norm_num [Workout.show_training_info, Workout.get_spent_calories,
      Workout.get_mean_speed, Workout.get_distance, Workout.base, Workout.name,
      Workout.LEN_STEP, M_IN_KM, MIN_IN_HR, SWIM_COEFF_FOR_MEAN_SPEED,
      SWIM_COEFF_MULTIPL, Except.bind, Except.pure]

/-- C5 witness: the unknown code "XYZ" makes the dispatcher fail with
a key error whose message carries "XYZ". -/
theorem c5_dispatch_witness :
    "XYZ" ≠ "SWM" ∧ "XYZ" ≠ "RUN" ∧ "XYZ" ≠ "WLK"
    ∧ ∃ tail, read_package "XYZ" [1] =
        Except.error (HWError.keyError ("XYZ" ++ tail)) :=
  ⟨by decide, by decide, by decide,
    c5_dispatch.1 "XYZ" [1] (by decide) (by decide) (by decide)⟩

/-- C6: the base class calorie method always fails with the
not-implemented error, while every workout the dispatcher can return
computes its calories successfully. -/
theorem c6_not_implemented :
    (∀ t : Training, t.get_spent_calories =
      Except.error HWError.notImplemented)
    ∧ (∀ (code : String) (data : List ℚ) (w : Workout),
        read_package code data = Except.ok w →
        ∃ q, w.get_spent_calories = Except.ok q) := by
  refine ⟨fun _ => rfl, ?_⟩
  intro code data w _
  cases w with
  | run r => exact ⟨_, rfl⟩
  | wlk s => exact ⟨_, rfl⟩
  | swm s => exact ⟨_, rfl⟩

/-- C6 witness: the dispatcher output for ("RUN", [15000, 1, 75])
computes its calories without the not-implemented error. -/
theorem c6_not_implemented_witness :
    read_package "RUN" [15000, 1, 75] =
      Except.ok (Workout.run ⟨⟨15000, 1, 75⟩⟩)
    ∧ ∃ q, (Workout.run ⟨⟨15000, 1, 75⟩⟩).get_spent_calories = Except.ok q :=
  ⟨rfl, c6_not_implemented.2 "RUN" [15000, 1, 75] _ rfl⟩

/-- C7: for each recognized code the dispatcher succeeds exactly when
the parameter list has the expected length (5 for "SWM", 3 for "RUN",
4 for "WLK"), and otherwise fails with an arity-mismatch error. -/
theorem c7_arity :
    (∀ data : List ℚ,
      ((∃ w, read_package "SWM" data = Except.ok w) ↔ data.length = 5)
      ∧ (data.length ≠ 5 → read_package "SWM" data =
          Except.error (HWError.arityMismatch "SWM" data.length)))
    ∧ (∀ data : List ℚ,
      ((∃ w, read_package "RUN" data = Except.ok w) ↔ data.length = 3)
      ∧ (data.length ≠ 3 → read_package "RUN" data =
          Except.error (HWError.arityMismatch "RUN" data.length)))
    ∧ (∀ data : List ℚ,
      ((∃ w, read_package "WLK" data = Except.ok w) ↔ data.length = 4)
      ∧ (data.length ≠ 4 → read_package "WLK" data =
          Except.error (HWError.arityMismatch "WLK" data.length))) := by
  refine ⟨?_, ?_, ?_⟩ <;> intro data <;>
    rcases data with _ | ⟨a, _ | ⟨b, _ | ⟨c, _ | ⟨d, _ | ⟨e, _ | ⟨f, rest⟩⟩⟩⟩⟩⟩ <;>
    simp [read_package]

/-- C7 witness: "SWM" with the three-element parameter list [1, 2, 3]
fails with the arity-mismatch error. -/
theorem c7_arity_witness :
    ((3 : ℕ) ≠ 5)
    ∧ read_package "SWM" [1, 2, 3] =
        Except.error (HWError.arityMismatch "SWM" 3) :=
  ⟨by decide, (c7_arity.1 [1, 2, 3]).2 (by decide)⟩

/-- C8: the formatter emits the fixed template with fields in the
order activity type, duration, distance, mean speed, calories; every
numeric field is rendered with exactly three decimal digits,
zero-padded, so 9.7 renders as "9.700". -/
theorem c8_formatting :
    (∀ m : InfoMessage, m.get_message =
      "Тип тренировки: " ++ m.training_type
      ++ "; Длительность: " ++ formatFixed3 m.duration
      ++ " ч.; Дистанция: " ++ formatFixed3 m.distance
      ++ " км; Ср. скорость: " ++ formatFixed3 m.speed
      ++ " км/ч; Потрачено ккал: " ++ formatFixed3 m.calories ++ ".")
    ∧ (∀ q : ℚ, ∃ intPart fracPart, formatFixed3 q = intPart ++ "." ++ fracPart
        ∧ fracPart.length = 3 ∧ fracPart.toList.all Char.isDigit = true)
    ∧ formatFixed3 9.7 = "9.700" := by
  refine ⟨fun _ => rfl, ?_, ?_⟩
  · intro q
    exact ⟨(if roundHalfEven (q * 1000) < 0 then "-" else "")
        ++ Nat.repr ((roundHalfEven (q * 1000)).natAbs / 1000),
      fracDigits3 ((roundHalfEven (q * 1000)).natAbs % 1000),
      rfl, fracDigits3_length _, fracDigits3_all_digits _⟩
  · rw [formatFixed3_of 9.7 9700 (by norm_num [roundHalfEven, floorQ])]
    decide

/-- C9: a Running sample with positive duration and weight whose mean
speed is below 20/18 km/h gets a strictly negative calorie value: the
Running formula is not bounded below by zero. -/
theorem c9_negative_calories (r : Running)
    (hd : 0 < r.duration) (hw : 0 < r.weight)
    (hs : (Workout.run r).get_mean_speed < 20 / 18) :
    ∃ q, (Workout.run r).get_spent_calories = Except.ok q ∧ q < 0 := by
  refine ⟨_, rfl, ?_⟩
  simp only [RUN_COEFF_MULTIPL, RUN_COEFF_SUBTRACT, M_IN_KM, MIN_IN_HR]
  have h1 : 18 * (Workout.run r).get_mean_speed - 20 < 0 := by
    nlinarith [hs]
  have h2 : (18 * (Workout.run r).get_mean_speed - 20) * r.weight < 0 :=
    mul_neg_of_neg_of_pos h1 hw
  have h3 : (18 * (Workout.run r).get_mean_speed - 20) * r.weight / 1000 < 0 :=
    div_neg_of_neg_of_pos h2 (by norm_num)
  have h4 : (18 * (Workout.run r).get_mean_speed - 20) * r.weight / 1000
      * r.duration < 0 := mul_neg_of_neg_of_pos h3 hd
  exact mul_neg_of_neg_of_pos h4 (by norm_num)

/-- C9 witness: the Running sample (100, 1, 75) has positive duration
and weight, mean speed below 20/18, and negative calories. -/
theorem c9_negative_calories_witness :
    0 < (Running.mk ⟨100, 1, 75⟩).duration
    ∧ 0 < (Running.mk ⟨100, 1, 75⟩).weight
    ∧ (Workout.run (Running.mk ⟨100, 1, 75⟩)).get_mean_speed < 20 / 18
    ∧ ∃ q, (Workout.run (Running.mk ⟨100, 1, 75⟩)).get_spent_calories =
        Except.ok q ∧ q < 0 := by
  have hs : (Workout.run (Running.mk ⟨100, 1, 75⟩)).get_mean_speed < 20 / 18 := by
    norm_num [Workout.get_mean_speed, Workout.get_distance, Workout.base,
      Workout.LEN_STEP, M_IN_KM]
  exact ⟨show (0 : ℚ) < 1 by norm_num, show (0 : ℚ) < 75 by norm_num, hs,
    c9_negative_calories (Running.mk ⟨100, 1, 75⟩)
      (show (0 : ℚ) < 1 by norm_num) (show (0 : ℚ) < 75 by norm_num) hs⟩

/-- C10: for Running and SportsWalking with nonzero duration, mean
speed times duration recovers the distance; for Swimming this fails,
as at the sample (720, 1, 80, 25, 40) where mean speed times duration
is 1 while the distance is 0.9936. -/
theorem c10_speed_distance :
    (∀ r : Running, r.duration ≠ 0 →
      (Workout.run r).get_mean_speed * r.duration = (Workout.run r).get_distance)
    ∧ (∀ s : SportsWalking, s.duration ≠ 0 →
      (Workout.wlk s).get_mean_speed * s.duration = (Workout.wlk s).get_distance)
    ∧ (Workout.swm ⟨⟨720, 1, 80⟩, 25, 40⟩).get_mean_speed * (1 : ℚ) ≠
        (Workout.swm ⟨⟨720, 1, 80⟩, 25, 40⟩).get_distance := by
  refine ⟨?_, ?_, ?_⟩
  · intro r h
    exact div_mul_cancel₀ _ h
  · intro s h
    exact div_mul_cancel₀ _ h
  · norm_num [Workout.get_mean_speed, Workout.get_distance, Workout.base,
      Workout.LEN_STEP, M_IN_KM]

/-- C10 witness: the Running sample (15000, 1, 75) has nonzero
duration, and its mean speed times its duration equals its distance. -/
theorem c10_speed_distance_witness :
    (Running.mk ⟨15000, 1, 75⟩).duration ≠ 0
    ∧ (Workout.run (Running.mk ⟨15000, 1, 75⟩)).get_mean_speed
        * (Running.mk ⟨15000, 1, 75⟩).duration =
      (Workout.run (Running.mk ⟨15000, 1, 75⟩)).get_distance :=
  ⟨show (1 : ℚ) ≠ 0 by norm_num,
    c10_speed_distance.1 (Running.mk ⟨15000, 1, 75⟩) (show (1 : ℚ) ≠ 0 by norm_num)⟩
